import Mathlib

/-!
Shallow embedding of the bolt-workout-logger repository.

Client side: the workout-session state machine of
src/client/src/components/WorkoutSession.tsx (startWorkout, saveAllSets,
goToNextExercise, goToPreviousExercise, selectExercise, saveSetOnBlur,
deleteSet, updateSet, finishWorkout, and the React effect that re-initializes
the draft inputs when the exercise cursor moves).

Server side: the express routes of src/server/routes.ts (the authenticateUser
middleware, signin/signout session registry updates, and the delete routes)
over the drizzle storage layer DatabaseStorage, together with the
cascade-delete rule of the routine_exercises table declared in the schema.

Timestamps are modelled as natural numbers, database uuids as sequentially
assigned natural numbers (Db.nextId), and decimal weights as rationals.  The
outcome of each network/persistence call is supplied by an explicit oracle
(a Bool, or a function from call index to Bool for batched calls), matching
the try/catch structure of the source.
-/

namespace WorkoutLogger

/-- One draft set input slot of the client (weight, reps, rpe). -/
structure SetInput where
  weight : Rat
  reps : Nat
  rpe : Nat
  deriving DecidableEq

/-- The slot value every draft is reset to by the cursor effect. -/
def defaultInput : SetInput := { weight := 0, reps := 0, rpe := 5 }

/-- A routine exercise as seen by the client (id, name, planned_sets, order_index). -/
structure Exercise where
  id : Nat
  name : String
  planned_sets : Nat
  order_index : Nat
  deriving DecidableEq

/-- A routine with its fetched exercises, as selected on the start screen. -/
structure Routine where
  id : Nat
  name : String
  exercises : List Exercise
  deriving DecidableEq

/-- The activeWorkout client state recorded by startWorkout. -/
structure ActiveWorkout where
  id : Nat
  routine_name : String
  start_time : Nat
  exercises : List Exercise
  deriving DecidableEq

/-- A row of the workouts table. -/
structure WorkoutRow where
  id : Nat
  user_id : Nat
  routine_id : Option Nat
  routine_name : String
  start_time : Nat
  end_time : Option Nat
  deriving DecidableEq

/-- A row of the workout_sets table (also the client WorkoutSet shape). -/
structure WorkoutSetRow where
  id : Nat
  workout_id : Nat
  exercise_name : String
  weight : Rat
  reps : Nat
  rpe : Nat
  set_number : Nat
  deriving DecidableEq

/-- A row of the routines table. -/
structure RoutineRow where
  id : Nat
  user_id : Nat
  name : String
  deriving DecidableEq

/-- A row of the routine_exercises table. -/
structure RoutineExerciseRow where
  id : Nat
  routine_id : Nat
  name : String
  planned_sets : Nat
  order_index : Nat
  deriving DecidableEq

/-- The relational store; nextId models the uuid generator. -/
structure Db where
  routines : List RoutineRow
  routine_exercises : List RoutineExerciseRow
  workouts : List WorkoutRow
  workout_sets : List WorkoutSetRow
  nextId : Nat
  deriving DecidableEq

/-- The body of a POST /api/workout-sets request. -/
structure InsertSet where
  workout_id : Nat
  exercise_name : String
  weight : Rat
  reps : Nat
  rpe : Nat
  set_number : Nat
  deriving DecidableEq

/-- The React component state of WorkoutSession relevant to the claims. -/
structure SessionState where
  userId : Nat
  activeWorkout : Option ActiveWorkout
  workoutSets : List WorkoutSetRow
  currentExerciseIndex : Nat
  currentExercise : Option Exercise
  setInputs : List SetInput
  deriving DecidableEq

/-- Client state, store state, and the console error log together. -/
structure World where
  st : SessionState
  db : Db
  log : List String
  deriving DecidableEq

/-- The mapping with index used by saveAllSets: setInputs.map((input, index) to a row). -/
def mapWithIndex (f : Nat → α → β) : Nat → List α → List β
  | _, [] => []
  | i, a :: as => f i a :: mapWithIndex f (i + 1) as

/-- The request body built from draft slot number i (0-based) of the current exercise. -/
def toInsert (aw : ActiveWorkout) (ex : Exercise) (i : Nat) (inp : SetInput) : InsertSet :=
  { workout_id := aw.id, exercise_name := ex.name, weight := inp.weight,
    reps := inp.reps, rpe := inp.rpe, set_number := i + 1 }

/-- setsToSave of saveAllSets: map every slot to a request body with 1-based
set_number, then keep only slots with data (weight greater than 0 or reps greater than 0). -/
def setsToSave (aw : ActiveWorkout) (ex : Exercise) (inputs : List SetInput) : List InsertSet :=
  (mapWithIndex (toInsert aw ex) 0 inputs).filter
    (fun s => decide (0 < s.weight) || decide (0 < s.reps))

/-- The persisted row produced by a successful POST /api/workout-sets call. -/
def rowOfInsert (s : InsertSet) (id : Nat) : WorkoutSetRow :=
  { id := id, workout_id := s.workout_id, exercise_name := s.exercise_name,
    weight := s.weight, reps := s.reps, rpe := s.rpe, set_number := s.set_number }

/-- Rows persisted by a batch of createWorkoutSet calls; call i succeeds iff
outcomes i is true, and each call attempt consumes one generated id. -/
def insertManyRows (outcomes : Nat → Bool) : Nat → Nat → List InsertSet → List WorkoutSetRow
  | _, _, [] => []
  | i, nid, s :: rest =>
    if outcomes i then rowOfInsert s nid :: insertManyRows outcomes (i + 1) (nid + 1) rest
    else insertManyRows outcomes (i + 1) (nid + 1) rest

/-- Promise.all succeeds iff all n calls starting at index i succeed. -/
def allCallsOk (outcomes : Nat → Bool) : Nat → Nat → Bool
  | _, 0 => true
  | i, n + 1 => outcomes i && allCallsOk outcomes (i + 1) n

/-- The React effect on (activeWorkout, currentExerciseIndex): when an active
workout with a non-empty exercise list is present, it reads the exercise at
the cursor and resets the draft inputs to planned_sets default slots.
Out-of-range cursor indexing (undefined in the source) is modelled as leaving
the state unchanged. -/
def cursorEffect (st : SessionState) : SessionState :=
  match st.activeWorkout with
  | none => st
  | some aw =>
    if 0 < aw.exercises.length then
      match aw.exercises[st.currentExerciseIndex]? with
      | some ex =>
        { st with currentExercise := some ex,
                  setInputs := List.replicate ex.planned_sets defaultInput }
      | none => st
    else st

/-- saveAllSets: build setsToSave from the draft slots; if empty, return.
Otherwise issue the createWorkoutSet calls (Promise.all): every successful
call persists a row; if all succeed the returned rows are appended to the
local workoutSets list, otherwise the rejection is caught and logged and the
local list is left alone. -/
def saveAllSets (w : World) (outcomes : Nat → Bool) : World :=
  match w.st.activeWorkout, w.st.currentExercise with
  | some aw, some ex =>
    let toSave := setsToSave aw ex w.st.setInputs
    if toSave.length = 0 then w
    else
      let newRows := insertManyRows outcomes 0 w.db.nextId toSave
      let db2 : Db := { w.db with workout_sets := w.db.workout_sets ++ newRows,
                                  nextId := w.db.nextId + toSave.length }
      if allCallsOk outcomes 0 toSave.length then
        { w with db := db2, st := { w.st with workoutSets := w.st.workoutSets ++ newRows } }
      else
        { w with db := db2, log := w.log ++ ["Error saving sets"] }
  | _, _ => w

/-- goToNextExercise: flush, then advance the cursor when it is not on the
last exercise; the cursor effect then re-initializes the drafts. -/
def goToNextExercise (w : World) (outcomes : Nat → Bool) : World :=
  let w1 := saveAllSets w outcomes
  match w1.st.activeWorkout with
  | some aw =>
    if w1.st.currentExerciseIndex < aw.exercises.length - 1 then
      { w1 with st := cursorEffect { w1.st with
          currentExerciseIndex := w1.st.currentExerciseIndex + 1 } }
    else w1
  | none => w1

/-- goToPreviousExercise: only when the cursor is past index 0, flush and
step the cursor back. -/
def goToPreviousExercise (w : World) (outcomes : Nat → Bool) : World :=
  if 0 < w.st.currentExerciseIndex then
    let w1 := saveAllSets w outcomes
    { w1 with st := cursorEffect { w1.st with
        currentExerciseIndex := w1.st.currentExerciseIndex - 1 } }
  else w

/-- selectExercise: when a different index is chosen from the dropdown, flush
and jump the cursor there. -/
def selectExercise (w : World) (exerciseIndex : Nat) (outcomes : Nat → Bool) : World :=
  if exerciseIndex ≠ w.st.currentExerciseIndex then
    let w1 := saveAllSets w outcomes
    { w1 with st := cursorEffect { w1.st with currentExerciseIndex := exerciseIndex } }
  else w

/-- The local dedup key used by saveSetOnBlur. -/
def sameSlot (name : String) (n : Nat) (r : WorkoutSetRow) : Bool :=
  r.exercise_name == name && r.set_number == n

/-- saveSetOnBlur: if the blurred slot has data, persist it as one row; on
success replace any local entry for the same (exercise_name, set_number);
on failure log and keep the state. -/
def saveSetOnBlur (w : World) (setIndex : Nat) (ok : Bool) : World :=
  match w.st.activeWorkout, w.st.currentExercise, w.st.setInputs[setIndex]? with
  | some aw, some ex, some setData =>
    if decide (0 < setData.weight) || decide (0 < setData.reps) then
      if ok then
        let row := rowOfInsert (toInsert aw ex setIndex setData) w.db.nextId
        { w with
          db := { w.db with workout_sets := w.db.workout_sets ++ [row],
                            nextId := w.db.nextId + 1 },
          st := { w.st with workoutSets :=
            (w.st.workoutSets.filter (fun s => !(sameSlot ex.name (setIndex + 1) s))) ++ [row] } }
      else { w with log := w.log ++ ["Error saving set"] }
    else w
  | _, _, _ => w

/-- deleteSet: delete the row at the store and drop it from the local list on
success; on failure log and keep everything. -/
def deleteSet (w : World) (setId : Nat) (ok : Bool) : World :=
  if ok then
    { w with
      db := { w.db with workout_sets := w.db.workout_sets.filter (fun s => !(s.id == setId)) },
      st := { w.st with workoutSets := w.st.workoutSets.filter (fun s => !(s.id == setId)) } }
  else { w with log := w.log ++ ["Error deleting set"] }

/-- updateSet: local-only edit of an already recorded set (the API has no
update-set endpoint, so the source patches the local list only). -/
def updateSet (w : World) (setId : Nat) (weight : Rat) (reps rpe : Nat) : World :=
  { w with st := { w.st with workoutSets := w.st.workoutSets.map (fun s =>
      if s.id == setId then { s with weight := weight, reps := reps, rpe := rpe } else s) } }

/-- startWorkout: create a Workout row (start_time = now, no end_time), set
activeWorkout from the selected routine, clear the local set list, put the
cursor at 0; the cursor effect then initializes the drafts.  The routine the
source looks up for selectedRoutineId is passed as a parameter. -/
def startWorkout (w : World) (routine : Routine) (now : Nat) (ok : Bool) : World :=
  if ok then
    let row : WorkoutRow :=
      { id := w.db.nextId, user_id := w.st.userId, routine_id := some routine.id,
        routine_name := routine.name, start_time := now, end_time := none }
    { st := cursorEffect
        { w.st with
          activeWorkout := some
            { id := row.id, routine_name := routine.name, start_time := now,
              exercises := routine.exercises },
          workoutSets := [], currentExerciseIndex := 0 },
      db := { w.db with workouts := w.db.workouts ++ [row], nextId := w.db.nextId + 1 },
      log := w.log }
  else { w with log := w.log ++ ["Error starting workout"] }

/-- DatabaseStorage.updateWorkout as invoked by PATCH /api/workouts/:id with
an end_time body: set end_time on the rows matching both the id and the
session user id. -/
def updateWorkout (db : Db) (workoutId userId endTime : Nat) : Db :=
  { db with workouts := db.workouts.map (fun r =>
      if r.id == workoutId && r.user_id == userId then { r with end_time := some endTime } else r) }

/-- finishWorkout: flush the remaining drafts, then PATCH end_time = now; on
PATCH success clear all of the client session state, on failure log. -/
def finishWorkout (w : World) (outcomes : Nat → Bool) (patchOk : Bool) (now : Nat) : World :=
  match w.st.activeWorkout with
  | none => w
  | some aw =>
    let w1 := saveAllSets w outcomes
    if patchOk then
      { st := { w1.st with activeWorkout := none, workoutSets := [],
                           currentExerciseIndex := 0, currentExercise := none, setInputs := [] },
        db := updateWorkout w1.db aw.id w.st.userId now,
        log := w1.log }
    else { w1 with log := w1.log ++ ["Error finishing workout"] }

/-- Every user-triggerable operation of the workout session component. -/
inductive Op where
  | start (routine : Routine) (now : Nat) (ok : Bool)
  | next (outcomes : Nat → Bool)
  | prev (outcomes : Nat → Bool)
  | select (i : Nat) (outcomes : Nat → Bool)
  | blur (i : Nat) (ok : Bool)
  | finish (outcomes : Nat → Bool) (patchOk : Bool) (now : Nat)
  | deleteSet (setId : Nat) (ok : Bool)
  | updateSet (setId : Nat) (weight : Rat) (reps rpe : Nat)

/-- Apply one operation to the world. -/
def applyOp (w : World) : Op → World
  | .start r now ok => startWorkout w r now ok
  | .next o => goToNextExercise w o
  | .prev o => goToPreviousExercise w o
  | .select i o => selectExercise w i o
  | .blur i ok => saveSetOnBlur w i ok
  | .finish o pok now => finishWorkout w o pok now
  | .deleteSet sid ok => deleteSet w sid ok
  | .updateSet sid wt rp rpe => updateSet w sid wt rp rpe

/-- Store sanity: generated workout ids are below the generator counter and
the primary key is unique. -/
def dbWf (db : Db) : Prop :=
  (∀ r ∈ db.workouts, r.id < db.nextId) ∧ (db.workouts.map (fun r => r.id)).Nodup

/-- The authenticated identity attached to a session token. -/
structure SessionUser where
  id : Nat
  username : String
  deriving DecidableEq

/-- The in-memory sessions map of routes.ts, with Map set/delete semantics. -/
abbrev Sessions := List (String × SessionUser)

/-- sessions.get. -/
def sessionsGet (m : Sessions) (k : String) : Option SessionUser :=
  (m.find? (fun p => p.1 == k)).map (fun p => p.2)

/-- sessions.set: the new binding shadows any previous one. -/
def sessionsSet (m : Sessions) (k : String) (v : SessionUser) : Sessions :=
  (k, v) :: m.filter (fun p => !(p.1 == k))

/-- sessions.delete. -/
def sessionsDelete (m : Sessions) (k : String) : Sessions :=
  m.filter (fun p => !(p.1 == k))

/-- An HTTP error response (status, error body). -/
structure ApiError where
  status : Nat
  error : String
  deriving DecidableEq

/-- The authenticateUser middleware: a missing header, an empty header (falsy
in the source), or a token absent from the sessions map yields 401
Not authenticated; otherwise the request proceeds as the mapped user. -/
def authenticateUser (m : Sessions) (header : Option String) : Except ApiError SessionUser :=
  let sid := header.getD ""
  if sid = "" then .error { status := 401, error := "Not authenticated" }
  else
    match sessionsGet m sid with
    | none => .error { status := 401, error := "Not authenticated" }
    | some u => .ok u

/-- POST /api/auth/signin: on a found user with a verified password, register
a fresh token; otherwise 401 Invalid credentials.  The bcrypt comparison and
the user lookup are passed in as parameters. -/
def signin (m : Sessions) (userLookup : Option SessionUser) (passwordOk : Bool)
    (newSid : String) : Sessions × Except ApiError (SessionUser × String) :=
  match userLookup with
  | none => (m, .error { status := 401, error := "Invalid credentials" })
  | some u =>
    if passwordOk then (sessionsSet m newSid u, .ok (u, newSid))
    else (m, .error { status := 401, error := "Invalid credentials" })

/-- POST /api/auth/signout: delete the presented token (if any) and answer
success either way. -/
def signout (m : Sessions) (header : Option String) : Sessions × Bool :=
  let sid := header.getD ""
  if sid = "" then (m, true) else (sessionsDelete m sid, true)

/-- DatabaseStorage.deleteWorkoutSet: delete by set id only. -/
def deleteWorkoutSet (db : Db) (setId : Nat) : Db :=
  { db with workout_sets := db.workout_sets.filter (fun s => !(s.id == setId)) }

/-- DatabaseStorage.deleteRoutineExercise: delete by exercise id only. -/
def deleteRoutineExercise (db : Db) (exerciseId : Nat) : Db :=
  { db with routine_exercises := db.routine_exercises.filter (fun e => !(e.id == exerciseId)) }

/-- The where-clause of DatabaseStorage.deleteRoutine. -/
def routineMatches (routineId userId : Nat) (r : RoutineRow) : Bool :=
  r.id == routineId && r.user_id == userId

/-- DatabaseStorage.deleteRoutine plus the onDelete cascade declared on
routine_exercises.routine_id: the routines matching id and owner are removed,
and every exercise referencing a removed routine is removed with them. -/
def deleteRoutine (db : Db) (routineId userId : Nat) : Db :=
  { db with
    routines := db.routines.filter (fun r => !(routineMatches routineId userId r)),
    routine_exercises := db.routine_exercises.filter (fun e =>
      !(db.routines.any (fun r => routineMatches routineId userId r && r.id == e.routine_id))) }

/-- DELETE /api/workout-sets/:id: authenticate, then delete by id and answer
success true. -/
def deleteWorkoutSetRoute (m : Sessions) (db : Db) (header : Option String) (setId : Nat) :
    Db × Except ApiError Bool :=
  match authenticateUser m header with
  | .error e => (db, .error e)
  | .ok _ => (deleteWorkoutSet db setId, .ok true)

/-- DELETE /api/routine-exercises/:id: authenticate, then delete by id and
answer success true; the resolved session user is not consulted. -/
def deleteRoutineExerciseRoute (m : Sessions) (db : Db) (header : Option String)
    (exerciseId : Nat) : Db × Except ApiError Bool :=
  match authenticateUser m header with
  | .error e => (db, .error e)
  | .ok _ => (deleteRoutineExercise db exerciseId, .ok true)

/-! Helper lemmas shared by the claim theorems. -/

theorem mem_mapWithIndex {f : Nat → α → β} {b : β} {k : Nat} {l : List α} :
    b ∈ mapWithIndex f k l ↔ ∃ i a, l[i]? = some a ∧ b = f (k + i) a := by
  induction l generalizing k with
  | nil => simp [mapWithIndex]
  | cons a as ih =>
    simp only [mapWithIndex, List.mem_cons, ih]
    constructor
    · rintro (rfl | ⟨i, a2, hi, rfl⟩)
      · exact ⟨0, a, by simp, by simp⟩
      · exact ⟨i + 1, a2, by simpa using hi,
          by rw [show k + (i + 1) = k + 1 + i by omega]⟩
    · rintro ⟨i, a2, hi, rfl⟩
      cases i with
      | zero =>
        simp only [List.getElem?_cons_zero, Option.some.injEq] at hi
        subst hi; left; simp
      | succ j =>
        right
        exact ⟨j, a2, by simpa using hi,
          by rw [show k + 1 + j = k + (j + 1) by omega]⟩

theorem mem_setsToSave {aw : ActiveWorkout} {ex : Exercise} {inputs : List SetInput}
    {s : InsertSet} :
    s ∈ setsToSave aw ex inputs ↔
      ∃ i inp, inputs[i]? = some inp ∧ (0 < inp.weight ∨ 0 < inp.reps) ∧
        s = toInsert aw ex i inp := by
  simp only [setsToSave, List.mem_filter, mem_mapWithIndex, Nat.zero_add]
  constructor
  · rintro ⟨⟨i, inp, hi, rfl⟩, hp⟩
    refine ⟨i, inp, hi, ?_, rfl⟩
    simpa [toInsert, decide_eq_true_iff] using hp
  · rintro ⟨i, inp, hi, hp, rfl⟩
    exact ⟨⟨i, inp, hi, rfl⟩, by simp [toInsert, decide_eq_true_iff, hp]⟩

theorem mem_insertManyRows_all {outcomes : Nat → Bool} (hall : ∀ j, outcomes j = true)
    {i nid : Nat} {sets : List InsertSet} {r : WorkoutSetRow} :
    r ∈ insertManyRows outcomes i nid sets ↔
      ∃ j s, sets[j]? = some s ∧ r = rowOfInsert s (nid + j) := by
  induction sets generalizing i nid with
  | nil => simp [insertManyRows]
  | cons s0 rest ih =>
    rw [insertManyRows, if_pos (hall i)]
    simp only [List.mem_cons, ih]
    constructor
    · rintro (rfl | ⟨j, s, hj, rfl⟩)
      · exact ⟨0, s0, by simp, by simp⟩
      · exact ⟨j + 1, s, by simpa using hj,
          by rw [show nid + (j + 1) = nid + 1 + j by omega]⟩
    · rintro ⟨j, s, hj, rfl⟩
      cases j with
      | zero =>
        simp only [List.getElem?_cons_zero, Option.some.injEq] at hj
        subst hj; left; simp
      | succ j2 =>
        right
        exact ⟨j2, s, by simpa using hj,
          by rw [show nid + 1 + j2 = nid + (j2 + 1) by omega]⟩

theorem allCallsOk_of_all {outcomes : Nat → Bool} (hall : ∀ j, outcomes j = true)
    (i n : Nat) : allCallsOk outcomes i n = true := by
  induction n generalizing i with
  | zero => rfl
  | succ n ih => simp [allCallsOk, hall, ih]

theorem saveAllSets_preserves (w : World) (o : Nat → Bool) :
    (saveAllSets w o).st.activeWorkout = w.st.activeWorkout ∧
    (saveAllSets w o).st.currentExerciseIndex = w.st.currentExerciseIndex ∧
    (saveAllSets w o).st.currentExercise = w.st.currentExercise ∧
    (saveAllSets w o).st.setInputs = w.st.setInputs ∧
    (saveAllSets w o).st.userId = w.st.userId ∧
    (saveAllSets w o).db.workouts = w.db.workouts ∧
    (saveAllSets w o).db.routines = w.db.routines ∧
    (saveAllSets w o).db.routine_exercises = w.db.routine_exercises := by
  unfold saveAllSets
  split
  · dsimp only
    split
    · exact ⟨rfl, rfl, rfl, rfl, rfl, rfl, rfl, rfl⟩
    · split
      · exact ⟨rfl, rfl, rfl, rfl, rfl, rfl, rfl, rfl⟩
      · exact ⟨rfl, rfl, rfl, rfl, rfl, rfl, rfl, rfl⟩
  · exact ⟨rfl, rfl, rfl, rfl, rfl, rfl, rfl, rfl⟩

theorem saveAllSets_db_workout_sets {w : World} {o : Nat → Bool} {aw : ActiveWorkout}
    {ex : Exercise} (haw : w.st.activeWorkout = some aw)
    (hex : w.st.currentExercise = some ex) :
    (saveAllSets w o).db.workout_sets =
      w.db.workout_sets ++ insertManyRows o 0 w.db.nextId (setsToSave aw ex w.st.setInputs) := by
  unfold saveAllSets
  rw [haw, hex]
  dsimp only
  split
  · next h =>
    rw [List.length_eq_zero] at h
    rw [h]
    simp [insertManyRows]
  · split <;> rfl

theorem saveAllSets_db_nextId {w : World} {o : Nat → Bool} {aw : ActiveWorkout}
    {ex : Exercise} (haw : w.st.activeWorkout = some aw)
    (hex : w.st.currentExercise = some ex) :
    (saveAllSets w o).db.nextId = w.db.nextId + (setsToSave aw ex w.st.setInputs).length := by
  unfold saveAllSets
  rw [haw, hex]
  dsimp only
  split
  · next h => rw [h]; omega
  · split <;> rfl

theorem saveAllSets_fail {w : World} {o : Nat → Bool} {aw : ActiveWorkout} {ex : Exercise}
    (haw : w.st.activeWorkout = some aw) (hex : w.st.currentExercise = some ex)
    (hfail : allCallsOk o 0 (setsToSave aw ex w.st.setInputs).length = false) :
    (saveAllSets w o).st = w.st ∧ (saveAllSets w o).log = w.log ++ ["Error saving sets"] := by
  unfold saveAllSets
  rw [haw, hex]
  dsimp only
  split
  · next h =>
    rw [h] at hfail
    exact absurd hfail (by simp [allCallsOk])
  · split
    · next h2 => exact absurd hfail (by simp [h2])
    · exact ⟨rfl, rfl⟩

theorem saveAllSets_success_st {w : World} {o : Nat → Bool} {aw : ActiveWorkout}
    {ex : Exercise} (haw : w.st.activeWorkout = some aw)
    (hex : w.st.currentExercise = some ex) (hall : ∀ j, o j = true) :
    (saveAllSets w o).st.workoutSets =
      w.st.workoutSets ++ insertManyRows o 0 w.db.nextId (setsToSave aw ex w.st.setInputs) ∧
    (saveAllSets w o).log = w.log := by
  unfold saveAllSets
  rw [haw, hex]
  dsimp only
  split
  · next h =>
    rw [List.length_eq_zero] at h
    rw [h]
    simp [insertManyRows]
  · rw [if_pos (allCallsOk_of_all hall 0 _)]
    exact ⟨rfl, rfl⟩

theorem cursorEffect_preserves (st : SessionState) :
    (cursorEffect st).currentExerciseIndex = st.currentExerciseIndex ∧
    (cursorEffect st).activeWorkout = st.activeWorkout ∧
    (cursorEffect st).workoutSets = st.workoutSets ∧
    (cursorEffect st).userId = st.userId := by
  unfold cursorEffect
  split
  · exact ⟨rfl, rfl, rfl, rfl⟩
  · split
    · split
      · exact ⟨rfl, rfl, rfl, rfl⟩
      · exact ⟨rfl, rfl, rfl, rfl⟩
    · exact ⟨rfl, rfl, rfl, rfl⟩

theorem cursorEffect_spec {st : SessionState} {aw : ActiveWorkout} {ex : Exercise}
    (haw : st.activeWorkout = some aw)
    (hex : aw.exercises[st.currentExerciseIndex]? = some ex) :
    (cursorEffect st).setInputs = List.replicate ex.planned_sets defaultInput ∧
    (cursorEffect st).currentExercise = some ex := by
  have hlt : st.currentExerciseIndex < aw.exercises.length :=
    (List.getElem?_eq_some.1 hex).1
  unfold cursorEffect
  rw [haw]
  dsimp only
  rw [if_pos (show 0 < aw.exercises.length by omega)]
  rw [hex]
  exact ⟨rfl, rfl⟩

theorem goToNextExercise_db (w : World) (o : Nat → Bool) :
    (goToNextExercise w o).db = (saveAllSets w o).db := by
  unfold goToNextExercise
  dsimp only
  split
  · split <;> rfl
  · rfl

theorem goToNextExercise_index {w : World} {o : Nat → Bool} {aw : ActiveWorkout}
    (haw : w.st.activeWorkout = some aw) :
    (goToNextExercise w o).st.currentExerciseIndex =
      (if w.st.currentExerciseIndex < aw.exercises.length - 1
       then w.st.currentExerciseIndex + 1 else w.st.currentExerciseIndex) := by
  have hp := saveAllSets_preserves w o
  unfold goToNextExercise
  dsimp only
  rw [hp.1, haw]
  dsimp only
  rw [hp.2.1]
  split
  · rw [(cursorEffect_preserves _).1]
  · exact hp.2.1

theorem goToNextExercise_activeWorkout (w : World) (o : Nat → Bool) :
    (goToNextExercise w o).st.activeWorkout = w.st.activeWorkout := by
  have hp := saveAllSets_preserves w o
  unfold goToNextExercise
  dsimp only
  split
  · split
    · rw [(cursorEffect_preserves _).2.1]; exact hp.1
    · exact hp.1
  · exact hp.1

theorem goToNextExercise_log (w : World) (o : Nat → Bool) :
    (goToNextExercise w o).log = (saveAllSets w o).log := by
  unfold goToNextExercise
  dsimp only
  split
  · split <;> rfl
  · rfl

theorem goToNextExercise_workoutSets (w : World) (o : Nat → Bool) :
    (goToNextExercise w o).st.workoutSets = (saveAllSets w o).st.workoutSets := by
  unfold goToNextExercise
  dsimp only
  split
  · split
    · rw [(cursorEffect_preserves _).2.2.1]
    · rfl
  · rfl

theorem goToPreviousExercise_eq_of_zero {w : World} {o : Nat → Bool}
    (h : w.st.currentExerciseIndex = 0) : goToPreviousExercise w o = w := by
  unfold goToPreviousExercise
  rw [if_neg (by omega)]

theorem goToPreviousExercise_db_of_pos {w : World} {o : Nat → Bool}
    (h : 0 < w.st.currentExerciseIndex) :
    (goToPreviousExercise w o).db = (saveAllSets w o).db := by
  unfold goToPreviousExercise
  rw [if_pos h]

theorem goToPreviousExercise_index (w : World) (o : Nat → Bool) :
    (goToPreviousExercise w o).st.currentExerciseIndex = w.st.currentExerciseIndex - 1 := by
  unfold goToPreviousExercise
  split
  · dsimp only
    rw [(cursorEffect_preserves _).1]
    dsimp only
    rw [(saveAllSets_preserves w o).2.1]
  · omega

theorem selectExercise_db {w : World} {j : Nat} {o : Nat → Bool}
    (h : j ≠ w.st.currentExerciseIndex) :
    (selectExercise w j o).db = (saveAllSets w o).db := by
  unfold selectExercise
  rw [if_pos h]

theorem selectExercise_index (w : World) (j : Nat) (o : Nat → Bool) :
    (selectExercise w j o).st.currentExerciseIndex = j ∨
    (selectExercise w j o).st.currentExerciseIndex = w.st.currentExerciseIndex := by
  unfold selectExercise
  split
  · left
    dsimp only
    rw [(cursorEffect_preserves _).1]
  · right
    rfl

theorem saveSetOnBlur_db_workouts (w : World) (i : Nat) (ok : Bool) :
    (saveSetOnBlur w i ok).db.workouts = w.db.workouts := by
  unfold saveSetOnBlur
  split
  · dsimp only
    split
    · split <;> rfl
    · rfl
  · rfl

theorem deleteSet_db_workouts (w : World) (setId : Nat) (ok : Bool) :
    (deleteSet w setId ok).db.workouts = w.db.workouts := by
  unfold deleteSet
  split <;> rfl

theorem updateSet_db (w : World) (setId : Nat) (wt : Rat) (rp rpe : Nat) :
    (updateSet w setId wt rp rpe).db = w.db := rfl

theorem goToPreviousExercise_db_workouts (w : World) (o : Nat → Bool) :
    (goToPreviousExercise w o).db.workouts = w.db.workouts := by
  unfold goToPreviousExercise
  split
  · dsimp only
    exact (saveAllSets_preserves w o).2.2.2.2.2.1
  · rfl

theorem selectExercise_db_workouts (w : World) (j : Nat) (o : Nat → Bool) :
    (selectExercise w j o).db.workouts = w.db.workouts := by
  unfold selectExercise
  split
  · dsimp only
    exact (saveAllSets_preserves w o).2.2.2.2.2.1
  · rfl

theorem goToNextExercise_db_workouts (w : World) (o : Nat → Bool) :
    (goToNextExercise w o).db.workouts = w.db.workouts := by
  rw [show (goToNextExercise w o).db.workouts = (saveAllSets w o).db.workouts from by
    rw [goToNextExercise_db]]
  exact (saveAllSets_preserves w o).2.2.2.2.2.1

theorem updateWorkout_mem {db : Db} {wid uid et : Nat} {r2 : WorkoutRow}
    (h : r2 ∈ (updateWorkout db wid uid et).workouts) :
    ∃ r ∈ db.workouts,
      r2 = (if r.id == wid && r.user_id == uid then { r with end_time := some et } else r) := by
  unfold updateWorkout at h
  obtain ⟨r, hr, hs⟩ := List.mem_map.1 h
  exact ⟨r, hr, hs.symm⟩

theorem finishWorkout_true {w : World} {aw : ActiveWorkout}
    (haw : w.st.activeWorkout = some aw) (o : Nat → Bool) (now : Nat) :
    finishWorkout w o true now =
      { st := { (saveAllSets w o).st with
          activeWorkout := none, workoutSets := [], currentExerciseIndex := 0,
          currentExercise := none, setInputs := [] },
        db := updateWorkout (saveAllSets w o).db aw.id w.st.userId now,
        log := (saveAllSets w o).log } := by
  unfold finishWorkout
  rw [haw]
  rfl

theorem finishWorkout_false {w : World} {aw : ActiveWorkout}
    (haw : w.st.activeWorkout = some aw) (o : Nat → Bool) (now : Nat) :
    finishWorkout w o false now =
      { saveAllSets w o with
        log := (saveAllSets w o).log ++ ["Error finishing workout"] } := by
  unfold finishWorkout
  rw [haw]
  rfl

theorem saveSetOnBlur_true {w : World} {aw : ActiveWorkout} {ex : Exercise} {k : Nat}
    {inp : SetInput} (haw : w.st.activeWorkout = some aw)
    (hex : w.st.currentExercise = some ex) (hk : w.st.setInputs[k]? = some inp)
    (hpop : 0 < inp.weight ∨ 0 < inp.reps) :
    saveSetOnBlur w k true =
      { w with
        db := { w.db with
          workout_sets := w.db.workout_sets ++ [rowOfInsert (toInsert aw ex k inp) w.db.nextId],
          nextId := w.db.nextId + 1 },
        st := { w.st with workoutSets :=
          (w.st.workoutSets.filter (fun s => !(sameSlot ex.name (k + 1) s))) ++
            [rowOfInsert (toInsert aw ex k inp) w.db.nextId] } } := by
  unfold saveSetOnBlur
  rw [haw, hex, hk]
  dsimp only
  rw [if_pos (by rcases hpop with h | h <;> simp [h]), if_pos rfl]

theorem sessionsGet_set_self (m : Sessions) (k : String) (v : SessionUser) :
    sessionsGet (sessionsSet m k v) k = some v := by
  simp [sessionsGet, sessionsSet, List.find?]

theorem sessionsGet_delete_self (m : Sessions) (k : String) :
    sessionsGet (sessionsDelete m k) k = none := by
  have h : (m.filter (fun p => !(p.1 == k))).find? (fun p => p.1 == k) = none := by
    rw [List.find?_eq_none]
    intro p hp
    have h2 := (List.mem_filter.1 hp).2
    rw [Bool.not_eq_true'] at h2
    simp [h2]
  unfold sessionsGet sessionsDelete
  rw [h]
  rfl

theorem filter_not_filter (p : α → Bool) (l : List α) :
    (l.filter (fun a => !(p a))).filter p = [] := by
  induction l with
  | nil => rfl
  | cons a as ih => cases h : p a <;> simp [List.filter_cons, h, ih]

theorem terminal_of_same {w : World} (hw : dbWf w.db)
    {r : WorkoutRow} (hr : r ∈ w.db.workouts) (he : r.end_time ≠ none)
    {r2 : WorkoutRow} (h2 : r2 ∈ w.db.workouts) (hid : r2.id = r.id) :
    r2.end_time ≠ none := by
  have heq : r2 = r := List.inj_on_of_nodup_map hw.2 h2 hr hid
  rw [heq]
  exact he

theorem startWorkout_true (w : World) (routine : Routine) (now : Nat) :
    startWorkout w routine now true =
      { st := cursorEffect { w.st with
          activeWorkout := some { id := w.db.nextId, routine_name := routine.name,
                                  start_time := now, exercises := routine.exercises },
          workoutSets := [], currentExerciseIndex := 0 },
        db := { w.db with
          workouts := w.db.workouts ++
            [{ id := w.db.nextId, user_id := w.st.userId, routine_id := some routine.id,
               routine_name := routine.name, start_time := now, end_time := none }],
          nextId := w.db.nextId + 1 },
        log := w.log } := rfl

/-- No user-triggerable operation turns a workout row with a non-null
end_time back into an active (null end_time) row with the same id. -/
def FinishedTerminal : Prop :=
  ∀ (op : Op) (w : World), dbWf w.db →
    ∀ r ∈ w.db.workouts, r.end_time ≠ none →
      ∀ r2 ∈ (applyOp w op).db.workouts, r2.id = r.id → r2.end_time ≠ none

theorem finished_terminal_aux : FinishedTerminal := by
  rintro op w hw r hr he r2 h2 hid
  cases op with
  | start routine now ok =>
    dsimp only [applyOp] at h2
    cases ok with
    | false => exact terminal_of_same hw hr he h2 hid
    | true =>
      rw [startWorkout_true] at h2
      dsimp only at h2
      rcases List.mem_append.1 h2 with h2a | h2b
      · exact terminal_of_same hw hr he h2a hid
      · have h2c := List.mem_singleton.1 h2b
        have hlt := hw.1 r hr
        rw [h2c] at hid
        dsimp only at hid
        exfalso
        omega
  | next o =>
    dsimp only [applyOp] at h2
    rw [goToNextExercise_db_workouts] at h2
    exact terminal_of_same hw hr he h2 hid
  | prev o =>
    dsimp only [applyOp] at h2
    rw [goToPreviousExercise_db_workouts] at h2
    exact terminal_of_same hw hr he h2 hid
  | select i o =>
    dsimp only [applyOp] at h2
    rw [selectExercise_db_workouts] at h2
    exact terminal_of_same hw hr he h2 hid
  | blur i ok =>
    dsimp only [applyOp] at h2
    rw [saveSetOnBlur_db_workouts] at h2
    exact terminal_of_same hw hr he h2 hid
  | deleteSet sid ok =>
    dsimp only [applyOp] at h2
    rw [deleteSet_db_workouts] at h2
    exact terminal_of_same hw hr he h2 hid
  | updateSet sid wt rp rpe =>
    dsimp only [applyOp] at h2
    exact terminal_of_same hw hr he h2 hid
  | finish o pok now =>
    dsimp only [applyOp] at h2
    cases haw : w.st.activeWorkout with
    | none =>
      have hsame : finishWorkout w o pok now = w := by
        unfold finishWorkout
        rw [haw]
      rw [hsame] at h2
      exact terminal_of_same hw hr he h2 hid
    | some aw =>
      cases pok with
      | false =>
        have hthis : (finishWorkout w o false now).db.workouts = w.db.workouts := by
          unfold finishWorkout
          rw [haw]
          dsimp only
          exact (saveAllSets_preserves w o).2.2.2.2.2.1
        rw [hthis] at h2
        exact terminal_of_same hw hr he h2 hid
      | true =>
        rw [finishWorkout_true haw] at h2
        dsimp only at h2
        obtain ⟨r3, hr3, hr2eq⟩ := updateWorkout_mem h2
        rw [(saveAllSets_preserves w o).2.2.2.2.2.1] at hr3
        by_cases hc : (r3.id == aw.id && r3.user_id == w.st.userId) = true
        · rw [if_pos hc] at hr2eq
          rw [hr2eq]
          simp
        · rw [if_neg hc] at hr2eq
          rw [hr2eq] at hid ⊢
          exact terminal_of_same hw hr he hr3 hid

/-- Conclusion of claim C1: the populated draft slots of the exercise being
left are persisted, one row per populated slot, with set_number equal to the
1-based slot position; unpopulated slots contribute nothing. -/
def FlushExact (w : World) (aw : ActiveWorkout) (ex : Exercise) (o : Nat → Bool) : Prop :=
  ∃ newRows : List WorkoutSetRow,
    (goToNextExercise w o).db.workout_sets = w.db.workout_sets ++ newRows ∧
    (0 < w.st.currentExerciseIndex →
      (goToPreviousExercise w o).db.workout_sets = w.db.workout_sets ++ newRows) ∧
    (∀ j, j ≠ w.st.currentExerciseIndex →
      (selectExercise w j o).db.workout_sets = w.db.workout_sets ++ newRows) ∧
    (∀ r ∈ newRows,
      ∃ i inp, w.st.setInputs[i]? = some inp ∧ (0 < inp.weight ∨ 0 < inp.reps) ∧
        r.workout_id = aw.id ∧ r.exercise_name = ex.name ∧ r.weight = inp.weight ∧
        r.reps = inp.reps ∧ r.rpe = inp.rpe ∧ r.set_number = i + 1) ∧
    (∀ i inp, w.st.setInputs[i]? = some inp → (0 < inp.weight ∨ 0 < inp.reps) →
      ∃ r ∈ newRows, r.workout_id = aw.id ∧ r.exercise_name = ex.name ∧
        r.weight = inp.weight ∧ r.reps = inp.reps ∧ r.rpe = inp.rpe ∧ r.set_number = i + 1)

/-- C1: for an in-progress workout, advancing the exercise cursor (next,
previous, or direct-select) persists exactly the populated draft slots
(weight over 0 or reps over 0) of the exercise being left as WorkoutSet rows
whose set_number is the 1-based slot position, and persists no unpopulated
slot. -/
theorem C1_advance_flushes_exactly_populated {w : World} {aw : ActiveWorkout}
    {ex : Exercise} {o : Nat → Bool} (haw : w.st.activeWorkout = some aw)
    (hex : w.st.currentExercise = some ex) (hall : ∀ j, o j = true) :
    FlushExact w aw ex o := by
  refine ⟨insertManyRows o 0 w.db.nextId (setsToSave aw ex w.st.setInputs),
    ?_, ?_, ?_, ?_, ?_⟩
  · rw [show (goToNextExercise w o).db.workout_sets = (saveAllSets w o).db.workout_sets from
      by rw [goToNextExercise_db]]
    exact saveAllSets_db_workout_sets haw hex
  · intro h
    rw [show (goToPreviousExercise w o).db.workout_sets = (saveAllSets w o).db.workout_sets
      from by rw [goToPreviousExercise_db_of_pos h]]
    exact saveAllSets_db_workout_sets haw hex
  · intro j hj
    rw [show (selectExercise w j o).db.workout_sets = (saveAllSets w o).db.workout_sets from
      by rw [selectExercise_db hj]]
    exact saveAllSets_db_workout_sets haw hex
  · intro r hr
    obtain ⟨j, s, hj, rfl⟩ := (mem_insertManyRows_all hall).1 hr
    have hs : s ∈ setsToSave aw ex w.st.setInputs := List.mem_iff_getElem?.2 ⟨j, hj⟩
    obtain ⟨i, inp, hi, hp, rfl⟩ := mem_setsToSave.1 hs
    exact ⟨i, inp, hi, hp, rfl, rfl, rfl, rfl, rfl, rfl⟩
  · intro i inp hi hp
    have hs : toInsert aw ex i inp ∈ setsToSave aw ex w.st.setInputs :=
      mem_setsToSave.2 ⟨i, inp, hi, hp, rfl⟩
    obtain ⟨j, hj⟩ := List.mem_iff_getElem?.1 hs
    exact ⟨rowOfInsert (toInsert aw ex i inp) (w.db.nextId + j),
      (mem_insertManyRows_all hall).2 ⟨j, _, hj, rfl⟩, rfl, rfl, rfl, rfl, rfl, rfl⟩

def exC1a : Exercise := { id := 1, name := "Bench", planned_sets := 2, order_index := 0 }

def exC1b : Exercise := { id := 2, name := "Row", planned_sets := 1, order_index := 1 }

def awC1 : ActiveWorkout :=
  { id := 50, routine_name := "Push", start_time := 10, exercises := [exC1a, exC1b] }

def wC1 : World :=
  { st := { userId := 7, activeWorkout := some awC1, workoutSets := [],
            currentExerciseIndex := 0, currentExercise := some exC1a,
            setInputs := [{ weight := 135, reps := 5, rpe := 8 }, defaultInput] },
    db := { routines := [], routine_exercises := [], workouts := [], workout_sets := [],
            nextId := 100 },
    log := [] }

theorem C1_witness :
    wC1.st.activeWorkout = some awC1 ∧ wC1.st.currentExercise = some exC1a ∧
    FlushExact wC1 awC1 exC1a (fun _ => true) :=
  ⟨rfl, rfl, C1_advance_flushes_exactly_populated rfl rfl (fun _ => rfl)⟩

/-- Conclusion of claim C2: starting a workout appends a workout row with
start_time now and null end_time, resets the cursor to 0, and the drafts of
the exercise the cursor lands on are exactly planned_sets default slots. -/
def StartAndReset (w : World) (routine : Routine) (now : Nat) : Prop :=
  ((startWorkout w routine now true).db.workouts =
     w.db.workouts ++
       [{ id := w.db.nextId, user_id := w.st.userId, routine_id := some routine.id,
          routine_name := routine.name, start_time := now, end_time := none }]) ∧
  (startWorkout w routine now true).st.currentExerciseIndex = 0 ∧
  (∀ ex, routine.exercises[0]? = some ex →
    (startWorkout w routine now true).st.setInputs =
        List.replicate ex.planned_sets defaultInput ∧
    (startWorkout w routine now true).st.currentExercise = some ex) ∧
  (∀ st : SessionState, ∀ aw ex, st.activeWorkout = some aw →
    aw.exercises[st.currentExerciseIndex]? = some ex →
    (cursorEffect st).setInputs = List.replicate ex.planned_sets defaultInput ∧
    (cursorEffect st).currentExercise = some ex)

/-- C2: starting a workout from a selected routine creates a Workout record
with start_time = now and end_time = null and sets the cursor to 0, and
whenever the cursor lands on an exercise the draft inputs become exactly
planned_sets slots of weight 0, reps 0, rpe 5. -/
theorem C2_start_initializes (w : World) (routine : Routine) (now : Nat) :
    StartAndReset w routine now := by
  refine ⟨rfl, ?_, ?_, ?_⟩
  · rw [startWorkout_true]
    exact (cursorEffect_preserves _).1
  · intro ex hex
    rw [startWorkout_true]
    exact cursorEffect_spec rfl hex
  · intro st aw ex haw hex
    exact cursorEffect_spec haw hex

def rC2 : Routine :=
  { id := 3, name := "Legs",
    exercises := [{ id := 9, name := "Squat", planned_sets := 2, order_index := 0 }] }

def wC2 : World :=
  { st := { userId := 1, activeWorkout := none, workoutSets := [],
            currentExerciseIndex := 0, currentExercise := none, setInputs := [] },
    db := { routines := [], routine_exercises := [], workouts := [], workout_sets := [],
            nextId := 0 },
    log := [] }

theorem C2_witness : StartAndReset wC2 rC2 42 := C2_start_initializes wC2 rC2 42

/-- Conclusion of claim C3 apart from terminality: finishing flushes the
drafts into workout_sets first, then stamps end_time = now on the workout
row, with end_time at or after start_time, and leaves no active workout. -/
def FinishSetsEndTime (w : World) (aw : ActiveWorkout) (o : Nat → Bool) (now : Nat) : Prop :=
  (∀ r2 ∈ (finishWorkout w o true now).db.workouts,
     r2.id = aw.id → r2.end_time = some now ∧ r2.start_time ≤ now) ∧
  (∀ ex, w.st.currentExercise = some ex →
    (finishWorkout w o true now).db.workout_sets =
      w.db.workout_sets ++ insertManyRows o 0 w.db.nextId (setsToSave aw ex w.st.setInputs)) ∧
  (finishWorkout w o true now).st.activeWorkout = none

/-- C3: finishing an active workout flushes the remaining populated drafts,
then sets the workout row end_time to now with end_time at or after
start_time; and the finished state is terminal, no operation makes the
end_time null again. -/
theorem C3_finish_flushes_then_ends {w : World} {aw : ActiveWorkout} {o : Nat → Bool}
    {now : Nat} (haw : w.st.activeWorkout = some aw)
    (huser : ∀ r ∈ w.db.workouts, r.id = aw.id → r.user_id = w.st.userId)
    (hstart : ∀ r ∈ w.db.workouts, r.id = aw.id → r.start_time ≤ now) :
    FinishSetsEndTime w aw o now ∧ FinishedTerminal := by
  refine ⟨⟨?_, ?_, ?_⟩, finished_terminal_aux⟩
  · intro r2 h2 hid
    rw [finishWorkout_true haw] at h2
    dsimp only at h2
    obtain ⟨r3, hr3, hr2eq⟩ := updateWorkout_mem h2
    rw [(saveAllSets_preserves w o).2.2.2.2.2.1] at hr3
    by_cases hc : (r3.id == aw.id && r3.user_id == w.st.userId) = true
    · rw [if_pos hc] at hr2eq
      subst hr2eq
      dsimp only at hid ⊢
      exact ⟨rfl, hstart r3 hr3 hid⟩
    · rw [if_neg hc] at hr2eq
      subst hr2eq
      exact absurd (by simp [hid, huser _ hr3 hid]) hc
  · intro ex hex
    rw [finishWorkout_true haw]
    dsimp only
    exact saveAllSets_db_workout_sets haw hex
  · rw [finishWorkout_true haw]

def awC3 : ActiveWorkout :=
  { id := 50, routine_name := "Push", start_time := 10, exercises := [exC1a] }

def wC3 : World :=
  { st := { userId := 7, activeWorkout := some awC3, workoutSets := [],
            currentExerciseIndex := 0, currentExercise := some exC1a,
            setInputs := [{ weight := 100, reps := 3, rpe := 7 }, defaultInput] },
    db := { routines := [], routine_exercises := [],
            workouts := [{ id := 50, user_id := 7, routine_id := some 3,
                           routine_name := "Push", start_time := 10, end_time := none }],
            workout_sets := [], nextId := 100 },
    log := [] }

theorem C3_witness :
    wC3.st.activeWorkout = some awC3 ∧
    (∀ r ∈ wC3.db.workouts, r.id = awC3.id → r.user_id = wC3.st.userId) ∧
    (∀ r ∈ wC3.db.workouts, r.id = awC3.id → r.start_time ≤ 25) ∧
    (FinishSetsEndTime wC3 awC3 (fun _ => true) 25 ∧ FinishedTerminal) :=
  ⟨rfl, by decide, by decide,
    C3_finish_flushes_then_ends rfl (by decide) (by decide)⟩

/-- C4: a missing or unknown x-session-id yields 401 Not authenticated; a
token registered by signin authorizes authenticated calls; after signout
deletes that token, calls carrying it get 401 again. -/
theorem C4_session_token_gates_api (m : Sessions) (sid tok : String) (u : SessionUser)
    (hunknown : sessionsGet m sid = none) (htok : tok ≠ "") :
    (authenticateUser m none = .error { status := 401, error := "Not authenticated" }) ∧
    (authenticateUser m (some sid) = .error { status := 401, error := "Not authenticated" }) ∧
    (authenticateUser (signin m (some u) true tok).1 (some tok) = .ok u) ∧
    (authenticateUser (signout (signin m (some u) true tok).1 (some tok)).1 (some tok) =
      .error { status := 401, error := "Not authenticated" }) := by
  have hso : (signout (sessionsSet m tok u) (some tok)).1 =
      sessionsDelete (sessionsSet m tok u) tok := by
    unfold signout
    dsimp only [Option.getD]
    rw [if_neg htok]
  refine ⟨rfl, ?_, ?_, ?_⟩
  · unfold authenticateUser
    dsimp only [Option.getD]
    by_cases h : sid = ""
    · rw [if_pos h]
    · rw [if_neg h, hunknown]
  · show authenticateUser (sessionsSet m tok u) (some tok) = .ok u
    unfold authenticateUser
    dsimp only [Option.getD]
    rw [if_neg htok, sessionsGet_set_self]
  · show authenticateUser (signout (sessionsSet m tok u) (some tok)).1 (some tok) =
      .error { status := 401, error := "Not authenticated" }
    rw [hso]
    unfold authenticateUser
    dsimp only [Option.getD]
    rw [if_neg htok, sessionsGet_delete_self]

theorem C4_witness :
    sessionsGet ([] : Sessions) "zzz" = none ∧ ("t1" : String) ≠ "" ∧
    (authenticateUser
        (signout (signin ([] : Sessions) (some { id := 9, username := "al" }) true "t1").1
          (some "t1")).1
        (some "t1") =
      .error { status := 401, error := "Not authenticated" }) :=
  ⟨rfl, by decide,
    (C4_session_token_gates_api [] "zzz" "t1" { id := 9, username := "al" } rfl
      (by decide)).2.2.2⟩

def sessC5 : Sessions := [("tokB", { id := 2, username := "bob" })]

def dbC5 : Db :=
  { routines := [{ id := 10, user_id := 1, name := "Legs" }],
    routine_exercises := [{ id := 100, routine_id := 10, name := "Squat",
                            planned_sets := 3, order_index := 0 }],
    workouts := [], workout_sets := [], nextId := 500 }

/-- C5 is refuted by the code: the session belongs to user 2, exercise 100
belongs (through its routine 10) to user 1, yet the authenticated
DELETE /api/routine-exercises/100 issued with user 2 token succeeds and
removes the exercise, because deleteRoutineExercise filters by exercise id
only and never consults the owning chain. -/
theorem C5_cross_user_delete_succeeds :
    sessionsGet sessC5 "tokB" = some { id := 2, username := "bob" } ∧
    ({ id := 100, routine_id := 10, name := "Squat", planned_sets := 3,
       order_index := 0 } : RoutineExerciseRow) ∈ dbC5.routine_exercises ∧
    (∀ r ∈ dbC5.routines, r.id = 10 → r.user_id = 1) ∧
    (deleteRoutineExerciseRoute sessC5 dbC5 (some "tokB") 100).2 = .ok true ∧
    (deleteRoutineExerciseRoute sessC5 dbC5 (some "tokB") 100).1.routine_exercises = [] :=
  ⟨rfl, by decide, by decide, rfl, rfl⟩

/-- Conclusion of claim C6: after a failed flush the error is only logged,
navigation still advances the cursor, the local recorded-set list is left as
it was, and finishing still stamps end_time and clears the active workout;
and when the finish PATCH itself fails the error is only logged and the view
state (active workout, cursor, recorded-set list) keeps the value the flush
left it with, while the workout rows stay untouched. -/
def FailuresIgnored (w : World) (aw : ActiveWorkout) (ex : Exercise) (o : Nat → Bool)
    (now : Nat) : Prop :=
  ((goToNextExercise w o).log = w.log ++ ["Error saving sets"]) ∧
  ((goToNextExercise w o).st.workoutSets = w.st.workoutSets) ∧
  ((goToNextExercise w o).st.activeWorkout = some aw) ∧
  ((goToNextExercise w o).st.currentExerciseIndex =
    if w.st.currentExerciseIndex < aw.exercises.length - 1
    then w.st.currentExerciseIndex + 1 else w.st.currentExerciseIndex) ∧
  ((finishWorkout w o true now).st.activeWorkout = none) ∧
  ((finishWorkout w o true now).log = w.log ++ ["Error saving sets"]) ∧
  (∀ r2 ∈ (finishWorkout w o true now).db.workouts, r2.id = aw.id →
    r2.user_id = w.st.userId → r2.end_time = some now) ∧
  ((finishWorkout w o false now).st = w.st ∧
    (finishWorkout w o false now).log =
      w.log ++ ["Error saving sets", "Error finishing workout"] ∧
    (finishWorkout w o false now).db.workouts = w.db.workouts) ∧
  (∀ o2 : Nat → Bool, (∀ j, o2 j = true) →
    (finishWorkout w o2 false now).st.activeWorkout = some aw ∧
    (finishWorkout w o2 false now).st.currentExerciseIndex = w.st.currentExerciseIndex ∧
    (finishWorkout w o2 false now).st.workoutSets =
      w.st.workoutSets ++ insertManyRows o2 0 w.db.nextId (setsToSave aw ex w.st.setInputs) ∧
    (finishWorkout w o2 false now).log = w.log ++ ["Error finishing workout"] ∧
    (finishWorkout w o2 false now).db.workouts = w.db.workouts)

/-- C6: any failed persistence call during an in-progress workout (a set
flush or the finish PATCH) is logged and otherwise ignored; the view state is
not rolled back: on a flush failure the cursor still advances exactly as on
success and finishing still completes, and on a finish-PATCH failure the
state keeps the value the flush left it with and end_time stays unset. -/
theorem C6_failures_logged_not_rolled_back {w : World} {aw : ActiveWorkout}
    {ex : Exercise} {o : Nat → Bool} {now : Nat} (haw : w.st.activeWorkout = some aw)
    (hex : w.st.currentExercise = some ex)
    (hfail : allCallsOk o 0 (setsToSave aw ex w.st.setInputs).length = false) :
    FailuresIgnored w aw ex o now := by
  obtain ⟨hst, hlog⟩ := saveAllSets_fail haw hex hfail
  refine ⟨?_, ?_, ?_, ?_, ?_, ?_, ?_, ⟨?_, ?_, ?_⟩, ?_⟩
  · rw [goToNextExercise_log, hlog]
  · rw [goToNextExercise_workoutSets, hst]
  · rw [goToNextExercise_activeWorkout, haw]
  · exact goToNextExercise_index haw
  · rw [finishWorkout_true haw]
  · rw [finishWorkout_true haw]
    dsimp only
    exact hlog
  · intro r2 h2 hid hu
    rw [finishWorkout_true haw] at h2
    dsimp only at h2
    obtain ⟨r3, hr3, hr2eq⟩ := updateWorkout_mem h2
    by_cases hc : (r3.id == aw.id && r3.user_id == w.st.userId) = true
    · rw [if_pos hc] at hr2eq
      subst hr2eq
      rfl
    · rw [if_neg hc] at hr2eq
      subst hr2eq
      exact absurd (by simp [hid, hu]) hc
  · rw [finishWorkout_false haw]
    dsimp only
    exact hst
  · rw [finishWorkout_false haw]
    dsimp only
    rw [hlog]
    simp
  · rw [finishWorkout_false haw]
    dsimp only
    exact (saveAllSets_preserves w o).2.2.2.2.2.1
  · intro o2 hall2
    obtain ⟨hsets2, hlog2⟩ := saveAllSets_success_st haw hex hall2
    refine ⟨?_, ?_, ?_, ?_, ?_⟩
    · rw [finishWorkout_false haw]
      dsimp only
      rw [(saveAllSets_preserves w o2).1]
      exact haw
    · rw [finishWorkout_false haw]
      dsimp only
      exact (saveAllSets_preserves w o2).2.1
    · rw [finishWorkout_false haw]
      dsimp only
      exact hsets2
    · rw [finishWorkout_false haw]
      dsimp only
      rw [hlog2]
    · rw [finishWorkout_false haw]
      dsimp only
      exact (saveAllSets_preserves w o2).2.2.2.2.2.1

def exC6 : Exercise := { id := 1, name := "Bench", planned_sets := 2, order_index := 0 }

def awC6 : ActiveWorkout :=
  { id := 60, routine_name := "Push", start_time := 10, exercises := [exC6] }

def wC6 : World :=
  { st := { userId := 7, activeWorkout := some awC6, workoutSets := [],
            currentExerciseIndex := 0, currentExercise := some exC6,
            setInputs := [{ weight := 135, reps := 5, rpe := 8 }, defaultInput] },
    db := { routines := [], routine_exercises := [],
            workouts := [{ id := 60, user_id := 7, routine_id := some 3,
                           routine_name := "Push", start_time := 10, end_time := none }],
            workout_sets := [], nextId := 100 },
    log := [] }

theorem C6_witness :
    wC6.st.activeWorkout = some awC6 ∧ wC6.st.currentExercise = some exC6 ∧
    allCallsOk (fun _ => false) 0 (setsToSave awC6 exC6 wC6.st.setInputs).length = false ∧
    FailuresIgnored wC6 awC6 exC6 (fun _ => false) 30 :=
  ⟨rfl, rfl, by decide, C6_failures_logged_not_rolled_back rfl rfl (by decide)⟩

/-- C7: deleting the same WorkoutSet twice is idempotent at the server: both
calls answer success true and the second call leaves the store exactly as the
first left it (the delete of an absent row filters nothing). -/
theorem C7_delete_workout_set_idempotent (m : Sessions) (tok : String) (u : SessionUser)
    (db : Db) (setId : Nat) (htok : tok ≠ "") (hsess : sessionsGet m tok = some u) :
    (deleteWorkoutSetRoute m db (some tok) setId).2 = .ok true ∧
    (deleteWorkoutSetRoute m (deleteWorkoutSetRoute m db (some tok) setId).1
        (some tok) setId).2 = .ok true ∧
    (deleteWorkoutSetRoute m (deleteWorkoutSetRoute m db (some tok) setId).1
        (some tok) setId).1 =
      (deleteWorkoutSetRoute m db (some tok) setId).1 := by
  have hauth : authenticateUser m (some tok) = .ok u := by
    unfold authenticateUser
    dsimp only [Option.getD]
    rw [if_neg htok, hsess]
  unfold deleteWorkoutSetRoute
  rw [hauth]
  dsimp only
  refine ⟨rfl, rfl, ?_⟩
  unfold deleteWorkoutSet
  dsimp only
  simp [List.filter_filter]

theorem C7_witness :
    ("t9" : String) ≠ "" ∧
    sessionsGet [("t9", { id := 4, username := "kim" })] "t9" =
      some { id := 4, username := "kim" } ∧
    (deleteWorkoutSetRoute [("t9", { id := 4, username := "kim" })]
        (deleteWorkoutSetRoute [("t9", { id := 4, username := "kim" })]
          { routines := [], routine_exercises := [], workouts := [],
            workout_sets := [{ id := 5, workout_id := 60, exercise_name := "Bench",
                               weight := 135, reps := 5, rpe := 8, set_number := 1 }],
            nextId := 6 } (some "t9") 5).1
        (some "t9") 5).1 =
      (deleteWorkoutSetRoute [("t9", { id := 4, username := "kim" })]
        { routines := [], routine_exercises := [], workouts := [],
          workout_sets := [{ id := 5, workout_id := 60, exercise_name := "Bench",
                             weight := 135, reps := 5, rpe := 8, set_number := 1 }],
          nextId := 6 } (some "t9") 5).1 :=
  ⟨by decide, rfl,
    (C7_delete_workout_set_idempotent [("t9", { id := 4, username := "kim" })] "t9"
      { id := 4, username := "kim" }
      { routines := [], routine_exercises := [], workouts := [],
        workout_sets := [{ id := 5, workout_id := 60, exercise_name := "Bench",
                           weight := 135, reps := 5, rpe := 8, set_number := 1 }],
        nextId := 6 } 5 (by decide) rfl).2.2⟩

/-- C8: deleting a routine by its owner removes every exercise referencing it
through the declared cascade, and every routine of a different user, together
with the exercises of those routines, survives unchanged. -/
theorem C8_routine_delete_cascades_and_frames {db : Db} {r0 : RoutineRow} {rid uid : Nat}
    (hnd : (db.routines.map (fun r => r.id)).Nodup)
    (hmem : r0 ∈ db.routines) (hid : r0.id = rid) (huid : r0.user_id = uid) :
    (r0 ∉ (deleteRoutine db rid uid).routines) ∧
    (∀ e ∈ (deleteRoutine db rid uid).routine_exercises, e.routine_id ≠ rid) ∧
    (∀ r ∈ db.routines, r.user_id ≠ uid →
      r ∈ (deleteRoutine db rid uid).routines ∧
      ∀ e ∈ db.routine_exercises, e.routine_id = r.id →
        e ∈ (deleteRoutine db rid uid).routine_exercises) := by
  have hmatch : routineMatches rid uid r0 = true := by simp [routineMatches, hid, huid]
  refine ⟨?_, ?_, ?_⟩
  · intro hcon
    have h2 := (List.mem_filter.1 hcon).2
    rw [hmatch] at h2
    cases h2
  · intro e he hcon
    have h2 := (List.mem_filter.1 he).2
    rw [Bool.not_eq_true'] at h2
    have h3 : db.routines.any
        (fun r => routineMatches rid uid r && r.id == e.routine_id) = true :=
      List.any_eq_true.2 ⟨r0, hmem, by simp [hmatch, hid, hcon]⟩
    rw [h2] at h3
    cases h3
  · intro r hr hru
    have hrm : routineMatches rid uid r = false := by
      unfold routineMatches
      by_cases h1 : r.id = rid
      · have hreq : r = r0 := List.inj_on_of_nodup_map hnd hr hmem (by rw [h1, hid])
        rw [hreq] at hru
        exact absurd huid hru
      · simp [h1]
    constructor
    · exact List.mem_filter.2 ⟨hr, by rw [hrm]; rfl⟩
    · intro e he hre
      refine List.mem_filter.2 ⟨he, ?_⟩
      cases hany : db.routines.any
          (fun r2 => routineMatches rid uid r2 && r2.id == e.routine_id) with
      | false => rfl
      | true =>
        exfalso
        obtain ⟨r2, hr2, hb⟩ := List.any_eq_true.1 hany
        rw [Bool.and_eq_true] at hb
        obtain ⟨hb1, hb2⟩ := hb
        have hb1a : r2.id = rid ∧ r2.user_id = uid := by
          simpa [routineMatches] using hb1
        have hb2a : r2.id = e.routine_id := by simpa using hb2
        have hr2r : r2 = r := List.inj_on_of_nodup_map hnd hr2 hr (by rw [hb2a, hre])
        rw [hr2r] at hb1a
        exact hru hb1a.2

def dbC8 : Db :=
  { routines := [{ id := 10, user_id := 1, name := "A" },
                 { id := 11, user_id := 2, name := "B" }],
    routine_exercises := [{ id := 100, routine_id := 10, name := "Squat",
                            planned_sets := 3, order_index := 0 },
                          { id := 101, routine_id := 11, name := "Curl",
                            planned_sets := 2, order_index := 0 }],
    workouts := [], workout_sets := [], nextId := 500 }

theorem C8_witness :
    (dbC8.routines.map (fun r => r.id)).Nodup ∧
    ({ id := 10, user_id := 1, name := "A" } : RoutineRow) ∈ dbC8.routines ∧
    (({ id := 10, user_id := 1, name := "A" } : RoutineRow) ∉
        (deleteRoutine dbC8 10 1).routines ∧
      (∀ e ∈ (deleteRoutine dbC8 10 1).routine_exercises, e.routine_id ≠ 10) ∧
      (∀ r ∈ dbC8.routines, r.user_id ≠ 1 →
        r ∈ (deleteRoutine dbC8 10 1).routines ∧
        ∀ e ∈ dbC8.routine_exercises, e.routine_id = r.id →
          e ∈ (deleteRoutine dbC8 10 1).routine_exercises)) :=
  ⟨by decide, by decide,
    C8_routine_delete_cascades_and_frames (by decide) (by decide) rfl rfl⟩

/-- Conclusion of claim C9: the cursor stays inside the exercise list, next
at the last index flushes but does not move, and previous at index 0 does
nothing at all. -/
def CursorBounds (w : World) (aw : ActiveWorkout) (o : Nat → Bool) : Prop :=
  ((goToNextExercise w o).st.currentExerciseIndex < aw.exercises.length) ∧
  ((goToPreviousExercise w o).st.currentExerciseIndex < aw.exercises.length) ∧
  (∀ j < aw.exercises.length,
    (selectExercise w j o).st.currentExerciseIndex < aw.exercises.length) ∧
  (w.st.currentExerciseIndex = aw.exercises.length - 1 →
    (goToNextExercise w o).st.currentExerciseIndex = w.st.currentExerciseIndex ∧
    (∀ ex, w.st.currentExercise = some ex →
      (goToNextExercise w o).db.workout_sets =
        w.db.workout_sets ++ insertManyRows o 0 w.db.nextId (setsToSave aw ex w.st.setInputs))) ∧
  (w.st.currentExerciseIndex = 0 → goToPreviousExercise w o = w)

/-- C9: over a non-empty exercise list, next, previous and in-range
direct-select keep the cursor within bounds; next at the last index leaves
the cursor unchanged while still flushing the populated drafts, and previous
at index 0 leaves the cursor unchanged and flushes nothing. -/
theorem C9_cursor_stays_in_bounds {w : World} {aw : ActiveWorkout} {o : Nat → Bool}
    (haw : w.st.activeWorkout = some aw) (hlen : 0 < aw.exercises.length)
    (hidx : w.st.currentExerciseIndex < aw.exercises.length) :
    CursorBounds w aw o := by
  refine ⟨?_, ?_, ?_, ?_, ?_⟩
  · rw [goToNextExercise_index haw]
    split <;> omega
  · rw [goToPreviousExercise_index]
    omega
  · intro j hj
    rcases selectExercise_index w j o with h | h <;> rw [h] <;> omega
  · intro hlast
    constructor
    · rw [goToNextExercise_index haw, if_neg (by omega)]
    · intro ex hex
      rw [show (goToNextExercise w o).db.workout_sets = (saveAllSets w o).db.workout_sets
        from by rw [goToNextExercise_db]]
      exact saveAllSets_db_workout_sets haw hex
  · intro h0
    exact goToPreviousExercise_eq_of_zero h0

def exC9 : Exercise := { id := 1, name := "Bench", planned_sets := 1, order_index := 0 }

def awC9 : ActiveWorkout :=
  { id := 90, routine_name := "Push", start_time := 10, exercises := [exC9] }

def wC9 : World :=
  { st := { userId := 7, activeWorkout := some awC9, workoutSets := [],
            currentExerciseIndex := 0, currentExercise := some exC9,
            setInputs := [{ weight := 225, reps := 3, rpe := 9 }] },
    db := { routines := [], routine_exercises := [], workouts := [], workout_sets := [],
            nextId := 200 },
    log := [] }

theorem C9_witness :
    wC9.st.activeWorkout = some awC9 ∧ 0 < awC9.exercises.length ∧
    wC9.st.currentExerciseIndex < awC9.exercises.length ∧
    CursorBounds wC9 awC9 (fun _ => true) :=
  ⟨rfl, by decide, by decide, C9_cursor_stays_in_bounds rfl (by decide) (by decide)⟩

/-- Conclusion of claim C10: blurring a populated slot and then navigating
away creates two persisted rows with the same workout, exercise name and
set_number but different ids; the local list holds exactly one entry for
that slot after the blur-save, and at least two after the navigation flush. -/
def BlurThenNavigateDuplicates (w : World) (aw : ActiveWorkout) (ex : Exercise)
    (k : Nat) (inp : SetInput) (o : Nat → Bool) : Prop :=
  (∃ r1 ∈ (goToNextExercise (saveSetOnBlur w k true) o).db.workout_sets,
   ∃ r2 ∈ (goToNextExercise (saveSetOnBlur w k true) o).db.workout_sets,
     r1.id ≠ r2.id ∧ r1.workout_id = aw.id ∧ r2.workout_id = aw.id ∧
     r1.exercise_name = ex.name ∧ r2.exercise_name = ex.name ∧
     r1.set_number = k + 1 ∧ r2.set_number = k + 1) ∧
  ((saveSetOnBlur w k true).st.workoutSets.filter (fun s => sameSlot ex.name (k + 1) s) =
    [rowOfInsert (toInsert aw ex k inp) w.db.nextId]) ∧
  2 ≤ ((goToNextExercise (saveSetOnBlur w k true) o).st.workoutSets.filter
        (fun s => sameSlot ex.name (k + 1) s)).length

/-- C10: a populated draft slot that is blurred (per-slot save) and then
navigated away from is persisted twice with the same (workout,
exercise_name, set_number); the local recorded-set list deduplicates on the
blur-save but appends without deduplication on the navigation flush. -/
theorem C10_blur_then_navigate_duplicates {w : World} {aw : ActiveWorkout} {ex : Exercise}
    {k : Nat} {inp : SetInput} {o : Nat → Bool} (haw : w.st.activeWorkout = some aw)
    (hex : w.st.currentExercise = some ex) (hk : w.st.setInputs[k]? = some inp)
    (hpop : 0 < inp.weight ∨ 0 < inp.reps) (hall : ∀ j, o j = true) :
    BlurThenNavigateDuplicates w aw ex k inp o := by
  have hblur := saveSetOnBlur_true haw hex hk hpop
  have h1aw : (saveSetOnBlur w k true).st.activeWorkout = some aw := by
    rw [hblur]; exact haw
  have h1ex : (saveSetOnBlur w k true).st.currentExercise = some ex := by
    rw [hblur]; exact hex
  have h1in : (saveSetOnBlur w k true).st.setInputs = w.st.setInputs := by
    rw [hblur]
  have h1nid : (saveSetOnBlur w k true).db.nextId = w.db.nextId + 1 := by
    rw [hblur]
  have h1sets : (saveSetOnBlur w k true).db.workout_sets =
      w.db.workout_sets ++ [rowOfInsert (toInsert aw ex k inp) w.db.nextId] := by
    rw [hblur]
  have h1local : (saveSetOnBlur w k true).st.workoutSets =
      (w.st.workoutSets.filter (fun s => !(sameSlot ex.name (k + 1) s))) ++
        [rowOfInsert (toInsert aw ex k inp) w.db.nextId] := by
    rw [hblur]
  have hmem0 : toInsert aw ex k inp ∈ setsToSave aw ex w.st.setInputs :=
    mem_setsToSave.2 ⟨k, inp, hk, hpop, rfl⟩
  obtain ⟨j, hj⟩ := List.mem_iff_getElem?.1 hmem0
  have hdb : (goToNextExercise (saveSetOnBlur w k true) o).db.workout_sets =
      (saveSetOnBlur w k true).db.workout_sets ++
        insertManyRows o 0 (saveSetOnBlur w k true).db.nextId
          (setsToSave aw ex w.st.setInputs) := by
    rw [show (goToNextExercise (saveSetOnBlur w k true) o).db.workout_sets =
        (saveAllSets (saveSetOnBlur w k true) o).db.workout_sets from by
      rw [goToNextExercise_db]]
    rw [← h1in]
    exact saveAllSets_db_workout_sets h1aw h1ex
  have hlocal2 : (goToNextExercise (saveSetOnBlur w k true) o).st.workoutSets =
      (saveSetOnBlur w k true).st.workoutSets ++
        insertManyRows o 0 (saveSetOnBlur w k true).db.nextId
          (setsToSave aw ex w.st.setInputs) := by
    rw [goToNextExercise_workoutSets]
    rw [← h1in]
    exact (saveAllSets_success_st h1aw h1ex hall).1
  have hr2mem : rowOfInsert (toInsert aw ex k inp) ((saveSetOnBlur w k true).db.nextId + j) ∈
      insertManyRows o 0 (saveSetOnBlur w k true).db.nextId
        (setsToSave aw ex w.st.setInputs) :=
    (mem_insertManyRows_all hall).2 ⟨j, _, hj, rfl⟩
  refine ⟨?_, ?_, ?_⟩
  · refine ⟨rowOfInsert (toInsert aw ex k inp) w.db.nextId, ?_,
      rowOfInsert (toInsert aw ex k inp) ((saveSetOnBlur w k true).db.nextId + j), ?_,
      ?_, rfl, rfl, rfl, rfl, rfl, rfl⟩
    · rw [hdb, h1sets]
      exact List.mem_append.2 (Or.inl (List.mem_append.2 (Or.inr (List.mem_singleton.2 rfl))))
    · rw [hdb]
      exact List.mem_append.2 (Or.inr hr2mem)
    · show w.db.nextId ≠ (saveSetOnBlur w k true).db.nextId + j
      rw [h1nid]
      omega
  · rw [h1local, List.filter_append, filter_not_filter]
    simp [sameSlot, rowOfInsert, toInsert]
  · rw [hlocal2, List.filter_append, h1local, List.filter_append, filter_not_filter]
    have hkey : sameSlot ex.name (k + 1)
        (rowOfInsert (toInsert aw ex k inp) ((saveSetOnBlur w k true).db.nextId + j)) = true := by
      simp [sameSlot, rowOfInsert, toInsert]
    have hmemf : rowOfInsert (toInsert aw ex k inp) ((saveSetOnBlur w k true).db.nextId + j) ∈
        (insertManyRows o 0 (saveSetOnBlur w k true).db.nextId
          (setsToSave aw ex w.st.setInputs)).filter (fun s => sameSlot ex.name (k + 1) s) :=
      List.mem_filter.2 ⟨hr2mem, hkey⟩
    have hpos := List.length_pos_of_mem hmemf
    have hone : (List.filter (fun s => sameSlot ex.name (k + 1) s)
        [rowOfInsert (toInsert aw ex k inp) w.db.nextId]).length = 1 := by
      simp [sameSlot, rowOfInsert, toInsert]
    simp only [List.length_append, List.length_nil, hone]
    omega

def exC10a : Exercise := { id := 1, name := "Bench", planned_sets := 2, order_index := 0 }

def exC10b : Exercise := { id := 2, name := "Row", planned_sets := 1, order_index := 1 }

def awC10 : ActiveWorkout :=
  { id := 70, routine_name := "Push", start_time := 10, exercises := [exC10a, exC10b] }

def wC10 : World :=
  { st := { userId := 7, activeWorkout := some awC10, workoutSets := [],
            currentExerciseIndex := 0, currentExercise := some exC10a,
            setInputs := [{ weight := 135, reps := 5, rpe := 8 }, defaultInput] },
    db := { routines := [], routine_exercises := [], workouts := [], workout_sets := [],
            nextId := 300 },
    log := [] }

theorem C10_witness :
    wC10.st.activeWorkout = some awC10 ∧ wC10.st.currentExercise = some exC10a ∧
    wC10.st.setInputs[0]? = some { weight := 135, reps := 5, rpe := 8 } ∧
    BlurThenNavigateDuplicates wC10 awC10 exC10a 0 { weight := 135, reps := 5, rpe := 8 }
      (fun _ => true) :=
  ⟨rfl, rfl, rfl,
    C10_blur_then_navigate_duplicates rfl rfl rfl (Or.inl (by norm_num)) (fun _ => rfl)⟩

end WorkoutLogger
